import Mathlib

/-!
Shallow embedding of `src/Unity/OldPlugins/Sources/Android/src/main/cpp/UnityJS.cpp`,
the JNI bridging shim of the SpaceCraft repository. The shim holds a handful of
process-wide globals and exposes eight entry points. We model the globals as a
`ShimState` record, pointers as `Nat` (with `0` the null pointer, matching the
C comparisons against `0`), and each entry point as a pure function from the
pre-state to the post-state together with the list of externally observable
effects (JNI calls, deliverer invocations, log output) it performs, in program
order. Operations that would dereference a null graphics-interface pointer in
the C code return `none`.
-/

/-- Graphics backend identifier (`UnityGfxRenderer` from the external
`IUnityGraphics.h` header, which is not part of this repository's sources).
Only the distinguished null marker `kUnityGfxRendererNull` matters to the shim;
the remaining backend enumerators are abstracted as numeric identifiers. -/
inductive UnityGfxRenderer where
  | kUnityGfxRendererNull : UnityGfxRenderer
  | backend : Nat → UnityGfxRenderer
deriving DecidableEq

/-- Device event kinds (`UnityGfxDeviceEventType` from the external
`IUnityGraphics.h` header), the four cases switched on by
`OnGraphicsDeviceEvent`. -/
inductive UnityGfxDeviceEventType where
  | kUnityGfxDeviceEventInitialize : UnityGfxDeviceEventType
  | kUnityGfxDeviceEventShutdown : UnityGfxDeviceEventType
  | kUnityGfxDeviceEventBeforeReset : UnityGfxDeviceEventType
  | kUnityGfxDeviceEventAfterReset : UnityGfxDeviceEventType
deriving DecidableEq

/-- The engine's graphics-interop interface (`IUnityGraphics`): the only member
the shim uses besides callback registration is `GetRenderer`, modelled as the
backend identifier the graphics layer reports at query time. -/
structure IUnityGraphics where
  getRenderer : UnityGfxRenderer
deriving DecidableEq

/-- The engine's interface provider (`IUnityInterfaces`): the shim only ever
requests the `IUnityGraphics` interface from it. -/
structure IUnityInterfaces where
  graphics : IUnityGraphics
deriving DecidableEq

/-- Externally observable effects of the shim, recorded in program order:
calls into the JNI environment, invocations of the registered deliverer,
graphics-interface calls, and Android log output. -/
inductive Event where
  | log : String → Event
  | getStringUTFChars : String → Event
  | releaseStringUTFChars : String → Event
  | callbackInvoke : Nat → String → String → String → Event
  | findClass : String → Event
  | getStaticMethodID : String → String → String → Event
  | callStaticVoidMethod : String → String → Event
  | registerDeviceEventCallback : Nat → Event
  | unregisterDeviceEventCallback : Nat → Event
  | getRenderer : Event
  | attachCurrentThread : Nat → Event
deriving DecidableEq

/-- The shim's process-wide mutable globals (`UnityJS.cpp`, "Globals" section).
Pointer-typed globals (`java_vm`, `jni_env`, `unitySendMessageCallback`) are
`Nat` with `0` for null; the two interface pointers are `Option`-valued so that
a null dereference is distinguishable. -/
structure ShimState where
  java_vm : Nat
  jni_env : Nat
  unity_interfaces : Option IUnityInterfaces
  unity_graphics : Option IUnityGraphics
  unity_renderer_type : UnityGfxRenderer
  unitySendMessageCallback : Nat
deriving DecidableEq

/-- The zero-initialized state of the C statics at library load:
all pointers null, `unity_renderer_type = kUnityGfxRendererNull`. -/
def initialShimState : ShimState :=
  { java_vm := 0
    jni_env := 0
    unity_interfaces := none
    unity_graphics := none
    unity_renderer_type := UnityGfxRenderer.kUnityGfxRendererNull
    unitySendMessageCallback := 0 }

/-- Abstract code address of the `RenderEventFunc` dispatcher, the value
returned by `GetRenderEventFunc`. Concrete machine addresses are outside the
model; only the identity of the function matters. -/
def RenderEventFuncAddr : Nat := 1

/-- Abstract code address of the `OnGraphicsDeviceEvent` callback, used to
identify which callback is registered and unregistered with the graphics
interface. -/
def OnGraphicsDeviceEventAddr : Nat := 2

/-- The diagnostic emitted by `UnitySendMessage` when no deliverer is
registered (the source's `trace(...)` line; its format string names
`GetRenderEventFunc` due to a copy-paste in the original). -/
def noCallbackLogMessage : String :=
  "Bridge.cpp: Java_com_ground_up_software_bridge_CBridgePlugin_GetRenderEventFunc: called without unitySendMessageCallback: 0"

/-- The class name looked up by dispatch code 2 of `RenderEventFunc`. -/
def bridgePluginClassName : String := "com/ground_up_software/bridge/CBridgePlugin"

/-- The static method name looked up by dispatch code 2 of `RenderEventFunc`. -/
def renderUpdateMethodName : String := "RenderUpdateBridgePlugins"

/-- The JNI version constant returned by `JNI_OnLoad`. `jni.h` is not part of
the repository's sources; `JNI_VERSION_1_6` is the standard JNI constant
`0x00010006`. -/
def JNI_VERSION_1_6 : Int := 0x00010006

/-- `Java_com_ground_up_software_bridge_CBridgePlugin_SetUnitySendMessageCallback`:
stores the supplied pointer value into the `unitySendMessageCallback` global,
with no validation and no other effect. -/
def Java_com_ground_up_software_bridge_CBridgePlugin_SetUnitySendMessageCallback
    (s : ShimState) (unitySendMessageCallback' : Nat) : ShimState × List Event :=
  ({ s with unitySendMessageCallback := unitySendMessageCallback' }, [])

/-- `Java_com_ground_up_software_bridge_CBridgePlugin_UnitySendMessage`:
if no deliverer is registered, log and return; otherwise extract the three
strings (`GetStringUTFChars`, which yields the text unchanged), invoke the
registered deliverer with them in order, then release the three buffers. -/
def Java_com_ground_up_software_bridge_CBridgePlugin_UnitySendMessage
    (s : ShimState) (targetString methodString messageString : String) :
    ShimState × List Event :=
  if s.unitySendMessageCallback = 0 then
    (s, [Event.log noCallbackLogMessage])
  else
    (s,
     [Event.getStringUTFChars targetString,
      Event.getStringUTFChars methodString,
      Event.getStringUTFChars messageString,
      Event.callbackInvoke s.unitySendMessageCallback targetString methodString messageString,
      Event.releaseStringUTFChars targetString,
      Event.releaseStringUTFChars methodString,
      Event.releaseStringUTFChars messageString])

/-- `Java_com_ground_up_software_bridge_CBridgePlugin_GetRenderEventFunc`:
returns the address of `RenderEventFunc` with no state change and no effect. -/
def Java_com_ground_up_software_bridge_CBridgePlugin_GetRenderEventFunc
    (s : ShimState) : ShimState × List Event × Nat :=
  (s, [], RenderEventFuncAddr)

/-- `RenderEventFunc`: the render-thread dispatcher. Codes 0 and 1 are
placeholders; code 2 looks up the fixed class and static method by name (no
caching) and invokes the method; any other code falls to the empty default. -/
def RenderEventFunc (s : ShimState) (eventId : Int) : ShimState × List Event :=
  if eventId = 0 then
    (s, [])
  else if eventId = 1 then
    (s, [])
  else if eventId = 2 then
    (s,
     [Event.findClass bridgePluginClassName,
      Event.getStaticMethodID bridgePluginClassName renderUpdateMethodName "()V",
      Event.callStaticVoidMethod bridgePluginClassName renderUpdateMethodName])
  else
    (s, [])

/-- `OnGraphicsDeviceEvent`: on the initialize event, query the graphics
interface (a null dereference if `unity_graphics` is unset) and store the
reported backend; on shutdown, reset the stored backend to the null marker;
the two reset events are accepted with no state change. -/
def OnGraphicsDeviceEvent (s : ShimState) (eventType : UnityGfxDeviceEventType) :
    Option (ShimState × List Event) :=
  match eventType with
  | UnityGfxDeviceEventType.kUnityGfxDeviceEventInitialize =>
    match s.unity_graphics with
    | some g =>
      some ({ s with unity_renderer_type := g.getRenderer }, [Event.getRenderer])
    | none => none
  | UnityGfxDeviceEventType.kUnityGfxDeviceEventShutdown =>
    some ({ s with unity_renderer_type := UnityGfxRenderer.kUnityGfxRendererNull }, [])
  | UnityGfxDeviceEventType.kUnityGfxDeviceEventBeforeReset => some (s, [])
  | UnityGfxDeviceEventType.kUnityGfxDeviceEventAfterReset => some (s, [])

/-- `UnityPluginLoad`: record the interfaces handle, obtain and record the
graphics interface, register the device-event callback, then synthesize the
initialize device event. -/
def UnityPluginLoad (s : ShimState) (unityInterfaces : IUnityInterfaces) :
    Option (ShimState × List Event) :=
  let s1 : ShimState :=
    { s with unity_interfaces := some unityInterfaces
             unity_graphics := some unityInterfaces.graphics }
  match OnGraphicsDeviceEvent s1 UnityGfxDeviceEventType.kUnityGfxDeviceEventInitialize with
  | some r =>
    some (r.1, Event.registerDeviceEventCallback OnGraphicsDeviceEventAddr :: r.2)
  | none => none

/-- `UnityPluginUnload`: unregister the device-event callback from the
graphics interface (a null dereference if `unity_graphics` is unset). -/
def UnityPluginUnload (s : ShimState) : Option (ShimState × List Event) :=
  match s.unity_graphics with
  | some _ => some (s, [Event.unregisterDeviceEventCallback OnGraphicsDeviceEventAddr])
  | none => none

/-- `JNI_OnLoad`: store the VM handle, attach the current thread (the VM
supplies the environment handle written through the out-parameter into
`jni_env`), and return `JNI_VERSION_1_6`. -/
def JNI_OnLoad (s : ShimState) (vm attachedEnv : Nat) :
    ShimState × List Event × Int :=
  ({ s with java_vm := vm, jni_env := attachedEnv },
   [Event.attachCurrentThread vm],
   JNI_VERSION_1_6)

/-- The deliverer pointers invoked along a trace, in order. -/
def invokedCallbacks : List Event → List Nat
  | [] => []
  | Event.callbackInvoke cb _ _ _ :: rest => cb :: invokedCallbacks rest
  | _ :: rest => invokedCallbacks rest

/-- The (target, method, message) argument triples of deliverer invocations
along a trace, in order. -/
def invokedArguments : List Event → List (String × String × String)
  | [] => []
  | Event.callbackInvoke _ t m msg :: rest => (t, m, msg) :: invokedArguments rest
  | _ :: rest => invokedArguments rest

/-- The number of static-void-method JNI invocations along a trace. -/
def countStaticVoidCalls : List Event → Nat
  | [] => 0
  | Event.callStaticVoidMethod _ _ :: rest => countStaticVoidCalls rest + 1
  | _ :: rest => countStaticVoidCalls rest

/-- C1: for every triple of texts, if a deliverer is registered (the stored
callback pointer is non-null), `UnitySendMessage` invokes the registered
deliverer exactly once with the three extracted texts unchanged and in the
order (target, method, message), and releases the three temporary string
buffers (after the invocation, before returning); the trace is exactly the
three extractions, the single invocation, and the three releases. -/
theorem unitySendMessage_delivers_exactly_once
    (s : ShimState) (target method message : String)
    (h : s.unitySendMessageCallback ≠ 0) :
    Java_com_ground_up_software_bridge_CBridgePlugin_UnitySendMessage
        s target method message =
      (s,
       [Event.getStringUTFChars target,
        Event.getStringUTFChars method,
        Event.getStringUTFChars message,
        Event.callbackInvoke s.unitySendMessageCallback target method message,
        Event.releaseStringUTFChars target,
        Event.releaseStringUTFChars method,
        Event.releaseStringUTFChars message]) ∧
    invokedCallbacks
        (Java_com_ground_up_software_bridge_CBridgePlugin_UnitySendMessage
          s target method message).2 = [s.unitySendMessageCallback] ∧
    invokedArguments
        (Java_com_ground_up_software_bridge_CBridgePlugin_UnitySendMessage
          s target method message).2 = [(target, method, message)] := by
  simp [Java_com_ground_up_software_bridge_CBridgePlugin_UnitySendMessage, h,
    invokedCallbacks, invokedArguments]

/-- Witness for C1 at a concrete registered state and concrete texts. -/
theorem unitySendMessage_delivers_exactly_once_witness :
    ({ initialShimState with unitySendMessageCallback := 7 } :
        ShimState).unitySendMessageCallback ≠ 0 ∧
    (Java_com_ground_up_software_bridge_CBridgePlugin_UnitySendMessage
        { initialShimState with unitySendMessageCallback := 7 } "t" "m" "msg" =
      ({ initialShimState with unitySendMessageCallback := 7 },
       [Event.getStringUTFChars "t",
        Event.getStringUTFChars "m",
        Event.getStringUTFChars "msg",
        Event.callbackInvoke 7 "t" "m" "msg",
        Event.releaseStringUTFChars "t",
        Event.releaseStringUTFChars "m",
        Event.releaseStringUTFChars "msg"]) ∧
     invokedCallbacks
        (Java_com_ground_up_software_bridge_CBridgePlugin_UnitySendMessage
          { initialShimState with unitySendMessageCallback := 7 } "t" "m" "msg").2 = [7] ∧
     invokedArguments
        (Java_com_ground_up_software_bridge_CBridgePlugin_UnitySendMessage
          { initialShimState with unitySendMessageCallback := 7 } "t" "m" "msg").2 =
        [("t", "m", "msg")]) :=
  ⟨by decide,
   unitySendMessage_delivers_exactly_once
     { initialShimState with unitySendMessageCallback := 7 } "t" "m" "msg" (by decide)⟩

/-- C2: for every triple of texts, calling `UnitySendMessage` with no deliverer
registered (the stored callback pointer is null) performs no deliverer
invocation and returns after emitting exactly the diagnostic log message; the
state is unchanged, so it is a no-op rather than an error. -/
theorem unitySendMessage_unregistered_noop
    (s : ShimState) (target method message : String)
    (h : s.unitySendMessageCallback = 0) :
    Java_com_ground_up_software_bridge_CBridgePlugin_UnitySendMessage
        s target method message = (s, [Event.log noCallbackLogMessage]) ∧
    invokedCallbacks
        (Java_com_ground_up_software_bridge_CBridgePlugin_UnitySendMessage
          s target method message).2 = [] := by
  simp [Java_com_ground_up_software_bridge_CBridgePlugin_UnitySendMessage, h,
    invokedCallbacks]

/-- Witness for C2 at the zero-initialized state. -/
theorem unitySendMessage_unregistered_noop_witness :
    initialShimState.unitySendMessageCallback = 0 ∧
    (Java_com_ground_up_software_bridge_CBridgePlugin_UnitySendMessage
        initialShimState "t" "m" "msg" =
      (initialShimState, [Event.log noCallbackLogMessage]) ∧
     invokedCallbacks
        (Java_com_ground_up_software_bridge_CBridgePlugin_UnitySendMessage
          initialShimState "t" "m" "msg").2 = []) :=
  ⟨by decide,
   unitySendMessage_unregistered_noop initialShimState "t" "m" "msg" (by decide)⟩

/-- C3: `SetUnitySendMessageCallback` stores its argument with no validation
and no side effect beyond overwriting the stored deliverer (empty effect
trace, only the callback field changes), and after two successive
registrations with `p1` then `p2` every subsequent delivery invokes `p2` and
only `p2` (and nothing if `p2` is the null pointer). -/
theorem setUnitySendMessageCallback_last_write_wins
    (s : ShimState) (p1 p2 : Nat) (target method message : String) :
    Java_com_ground_up_software_bridge_CBridgePlugin_SetUnitySendMessageCallback s p1 =
      ({ s with unitySendMessageCallback := p1 }, []) ∧
    (Java_com_ground_up_software_bridge_CBridgePlugin_SetUnitySendMessageCallback
        (Java_com_ground_up_software_bridge_CBridgePlugin_SetUnitySendMessageCallback
          s p1).1 p2).1 =
      { s with unitySendMessageCallback := p2 } ∧
    invokedCallbacks
        (Java_com_ground_up_software_bridge_CBridgePlugin_UnitySendMessage
          (Java_com_ground_up_software_bridge_CBridgePlugin_SetUnitySendMessageCallback
            (Java_com_ground_up_software_bridge_CBridgePlugin_SetUnitySendMessageCallback
              s p1).1 p2).1
          target method message).2 =
      (if p2 = 0 then [] else [p2]) := by
  refine ⟨rfl, rfl, ?_⟩
  by_cases h2 : p2 = 0
  · simp [Java_com_ground_up_software_bridge_CBridgePlugin_SetUnitySendMessageCallback,
      Java_com_ground_up_software_bridge_CBridgePlugin_UnitySendMessage, h2,
      invokedCallbacks]
  · simp [Java_com_ground_up_software_bridge_CBridgePlugin_SetUnitySendMessageCallback,
      Java_com_ground_up_software_bridge_CBridgePlugin_UnitySendMessage, h2,
      invokedCallbacks]

/-- C4: `RenderEventFunc` on code 0 and code 1 is a no-op; on code 2 it looks
up the fixed class and the fixed zero-argument static method by name on every
invocation (the lookup events appear in the trace each time, nothing is
cached in the state) and invokes the method exactly once; every other code
produces no effects; no code changes the state. -/
theorem renderEventFunc_dispatch (s : ShimState) (eventId : Int) :
    RenderEventFunc s eventId =
      (s,
       if eventId = 2 then
         [Event.findClass bridgePluginClassName,
          Event.getStaticMethodID bridgePluginClassName renderUpdateMethodName "()V",
          Event.callStaticVoidMethod bridgePluginClassName renderUpdateMethodName]
       else []) ∧
    countStaticVoidCalls (RenderEventFunc s eventId).2 =
      (if eventId = 2 then 1 else 0) := by
  by_cases h0 : eventId = 0
  · simp [RenderEventFunc, h0, countStaticVoidCalls]
  · by_cases h1 : eventId = 1
    · simp [RenderEventFunc, h0, h1, countStaticVoidCalls]
    · by_cases h2 : eventId = 2
      · simp [RenderEventFunc, h0, h1, h2, countStaticVoidCalls]
      · simp [RenderEventFunc, h0, h1, h2, countStaticVoidCalls]

/-- C5: `OnGraphicsDeviceEvent` stores the backend identifier the graphics
layer reports at that moment on the initialize event, resets the stored
backend to the null marker on the shutdown event, and makes no state change
on the before-reset and after-reset events. -/
theorem onGraphicsDeviceEvent_transitions
    (s : ShimState) (g : IUnityGraphics) (h : s.unity_graphics = some g) :
    OnGraphicsDeviceEvent s UnityGfxDeviceEventType.kUnityGfxDeviceEventInitialize =
      some ({ s with unity_renderer_type := g.getRenderer }, [Event.getRenderer]) ∧
    OnGraphicsDeviceEvent s UnityGfxDeviceEventType.kUnityGfxDeviceEventShutdown =
      some ({ s with unity_renderer_type := UnityGfxRenderer.kUnityGfxRendererNull }, []) ∧
    OnGraphicsDeviceEvent s UnityGfxDeviceEventType.kUnityGfxDeviceEventBeforeReset =
      some (s, []) ∧
    OnGraphicsDeviceEvent s UnityGfxDeviceEventType.kUnityGfxDeviceEventAfterReset =
      some (s, []) := by
  refine ⟨?_, rfl, rfl, rfl⟩
  simp [OnGraphicsDeviceEvent, h]

/-- Witness for C5 at a concrete state with a graphics interface recorded. -/
theorem onGraphicsDeviceEvent_transitions_witness :
    ({ initialShimState with
        unity_graphics := some { getRenderer := UnityGfxRenderer.backend 3 } } :
      ShimState).unity_graphics = some { getRenderer := UnityGfxRenderer.backend 3 } ∧
    OnGraphicsDeviceEvent
        { initialShimState with
            unity_graphics := some { getRenderer := UnityGfxRenderer.backend 3 } }
        UnityGfxDeviceEventType.kUnityGfxDeviceEventInitialize =
      some ({ initialShimState with
                unity_graphics := some { getRenderer := UnityGfxRenderer.backend 3 }
                unity_renderer_type := UnityGfxRenderer.backend 3 },
            [Event.getRenderer]) :=
  ⟨rfl,
   (onGraphicsDeviceEvent_transitions
      { initialShimState with
          unity_graphics := some { getRenderer := UnityGfxRenderer.backend 3 } }
      { getRenderer := UnityGfxRenderer.backend 3 } rfl).1⟩

/-- C6: `UnityPluginLoad` records the supplied interfaces handle, obtains and
records the graphics interface, registers the device-event callback, and then
synthesizes an initialize device event, so the resulting state already holds
the backend identifier the graphics layer reports; `UnityPluginUnload`
unregisters that same device-event callback. -/
theorem unityPluginLoad_unload
    (s : ShimState) (unityInterfaces : IUnityInterfaces) (g : IUnityGraphics)
    (h : s.unity_graphics = some g) :
    UnityPluginLoad s unityInterfaces =
      some ({ s with
                unity_interfaces := some unityInterfaces
                unity_graphics := some unityInterfaces.graphics
                unity_renderer_type := unityInterfaces.graphics.getRenderer },
            [Event.registerDeviceEventCallback OnGraphicsDeviceEventAddr,
             Event.getRenderer]) ∧
    UnityPluginUnload s =
      some (s, [Event.unregisterDeviceEventCallback OnGraphicsDeviceEventAddr]) := by
  constructor
  · simp [UnityPluginLoad, OnGraphicsDeviceEvent]
  · simp [UnityPluginUnload, h]

/-- Witness for C6 at a concrete state and a concrete interfaces handle. -/
theorem unityPluginLoad_unload_witness :
    ({ initialShimState with
        unity_graphics := some { getRenderer := UnityGfxRenderer.backend 1 } } :
      ShimState).unity_graphics = some { getRenderer := UnityGfxRenderer.backend 1 } ∧
    (UnityPluginLoad
        { initialShimState with
            unity_graphics := some { getRenderer := UnityGfxRenderer.backend 1 } }
        { graphics := { getRenderer := UnityGfxRenderer.backend 2 } } =
      some ({ initialShimState with
                unity_interfaces :=
                  some { graphics := { getRenderer := UnityGfxRenderer.backend 2 } }
                unity_graphics := some { getRenderer := UnityGfxRenderer.backend 2 }
                unity_renderer_type := UnityGfxRenderer.backend 2 },
            [Event.registerDeviceEventCallback OnGraphicsDeviceEventAddr,
             Event.getRenderer]) ∧
     UnityPluginUnload
        { initialShimState with
            unity_graphics := some { getRenderer := UnityGfxRenderer.backend 1 } } =
      some ({ initialShimState with
                unity_graphics := some { getRenderer := UnityGfxRenderer.backend 1 } },
            [Event.unregisterDeviceEventCallback OnGraphicsDeviceEventAddr])) :=
  ⟨rfl,
   unityPluginLoad_unload
     { initialShimState with
         unity_graphics := some { getRenderer := UnityGfxRenderer.backend 1 } }
     { graphics := { getRenderer := UnityGfxRenderer.backend 2 } }
     { getRenderer := UnityGfxRenderer.backend 1 } rfl⟩

/-- C7: for every invocation, `JNI_OnLoad` stores the supplied VM handle,
acquires the thread-local environment handle by attaching the current thread,
and returns the protocol version constant `JNI_VERSION_1_6`. -/
theorem jniOnLoad_attaches_and_reports_version (s : ShimState) (vm attachedEnv : Nat) :
    JNI_OnLoad s vm attachedEnv =
      ({ s with java_vm := vm, jni_env := attachedEnv },
       [Event.attachCurrentThread vm],
       JNI_VERSION_1_6) ∧
    (JNI_OnLoad s vm attachedEnv).2.2 = 65542 := by
  exact ⟨rfl, rfl⟩

/-- C8: `GetRenderEventFunc` has no side effects (state unchanged, empty
trace) and always returns the address of `RenderEventFunc`, the same value on
every call from any state. -/
theorem getRenderEventFunc_pure (s s' : ShimState) :
    Java_com_ground_up_software_bridge_CBridgePlugin_GetRenderEventFunc s =
      (s, [], RenderEventFuncAddr) ∧
    (Java_com_ground_up_software_bridge_CBridgePlugin_GetRenderEventFunc s).2.2 =
      (Java_com_ground_up_software_bridge_CBridgePlugin_GetRenderEventFunc s').2.2 := by
  exact ⟨rfl, rfl⟩

/-- C9: for every input triple, `UnitySendMessage` leaves the whole shim state
unchanged whether or not a deliverer is registered; and no other operation
modifies the deliverer pointer: `RenderEventFunc` and `GetRenderEventFunc`
leave the state unchanged, `JNI_OnLoad`, `UnityPluginLoad`, `UnityPluginUnload`
and `OnGraphicsDeviceEvent` preserve the `unitySendMessageCallback` field. -/
theorem unitySendMessage_frame
    (s : ShimState) (target method message : String) (vm attachedEnv : Nat)
    (unityInterfaces : IUnityInterfaces) (eventId : Int)
    (eventType : UnityGfxDeviceEventType) :
    (Java_com_ground_up_software_bridge_CBridgePlugin_UnitySendMessage
        s target method message).1 = s ∧
    (RenderEventFunc s eventId).1 = s ∧
    (Java_com_ground_up_software_bridge_CBridgePlugin_GetRenderEventFunc s).1 = s ∧
    (JNI_OnLoad s vm attachedEnv).1.unitySendMessageCallback =
      s.unitySendMessageCallback ∧
    (UnityPluginLoad s unityInterfaces).elim True
      (fun r => r.1.unitySendMessageCallback = s.unitySendMessageCallback) ∧
    (UnityPluginUnload s).elim True
      (fun r => r.1.unitySendMessageCallback = s.unitySendMessageCallback) ∧
    (OnGraphicsDeviceEvent s eventType).elim True
      (fun r => r.1.unitySendMessageCallback = s.unitySendMessageCallback) := by
  refine ⟨?_, ?_, rfl, rfl, ?_, ?_, ?_⟩
  · by_cases h : s.unitySendMessageCallback = 0 <;>
      simp [Java_com_ground_up_software_bridge_CBridgePlugin_UnitySendMessage, h]
  · by_cases h0 : eventId = 0 <;> by_cases h1 : eventId = 1 <;>
      by_cases h2 : eventId = 2 <;> simp [RenderEventFunc, h0, h1, h2]
  · simp [UnityPluginLoad, OnGraphicsDeviceEvent]
  · cases hg : s.unity_graphics <;> simp [UnityPluginUnload, hg]
  · cases eventType <;> cases hg : s.unity_graphics <;>
      simp [OnGraphicsDeviceEvent, hg]

/-- C10: registering the null pointer zero after a valid deliverer returns
the shim to the unregistered state: the delivery after registering `p`
invokes `p`, the subsequent registration of `0` leaves the callback field
null, and every later delivery is the diagnosed no-op — the null check is
re-evaluated on each delivery call. -/
theorem register_zero_returns_to_unregistered
    (s : ShimState) (p : Nat) (target method message : String) (h : p ≠ 0) :
    invokedCallbacks
        (Java_com_ground_up_software_bridge_CBridgePlugin_UnitySendMessage
          (Java_com_ground_up_software_bridge_CBridgePlugin_SetUnitySendMessageCallback
            s p).1 target method message).2 = [p] ∧
    (Java_com_ground_up_software_bridge_CBridgePlugin_SetUnitySendMessageCallback
        (Java_com_ground_up_software_bridge_CBridgePlugin_SetUnitySendMessageCallback
          s p).1 0).1.unitySendMessageCallback = 0 ∧
    Java_com_ground_up_software_bridge_CBridgePlugin_UnitySendMessage
        (Java_com_ground_up_software_bridge_CBridgePlugin_SetUnitySendMessageCallback
          (Java_com_ground_up_software_bridge_CBridgePlugin_SetUnitySendMessageCallback
            s p).1 0).1 target method message =
      ((Java_com_ground_up_software_bridge_CBridgePlugin_SetUnitySendMessageCallback
          (Java_com_ground_up_software_bridge_CBridgePlugin_SetUnitySendMessageCallback
            s p).1 0).1,
       [Event.log noCallbackLogMessage]) := by
  refine ⟨?_, rfl, rfl⟩
  simp [Java_com_ground_up_software_bridge_CBridgePlugin_SetUnitySendMessageCallback,
    Java_com_ground_up_software_bridge_CBridgePlugin_UnitySendMessage, h,
    invokedCallbacks]

/-- Witness for C10 at the zero-initialized state with deliverer pointer 5. -/
theorem register_zero_returns_to_unregistered_witness :
    (5 : Nat) ≠ 0 ∧
    (invokedCallbacks
        (Java_com_ground_up_software_bridge_CBridgePlugin_UnitySendMessage
          (Java_com_ground_up_software_bridge_CBridgePlugin_SetUnitySendMessageCallback
            initialShimState 5).1 "t" "m" "msg").2 = [5] ∧
     (Java_com_ground_up_software_bridge_CBridgePlugin_SetUnitySendMessageCallback
        (Java_com_ground_up_software_bridge_CBridgePlugin_SetUnitySendMessageCallback
          initialShimState 5).1 0).1.unitySendMessageCallback = 0 ∧
     Java_com_ground_up_software_bridge_CBridgePlugin_UnitySendMessage
        (Java_com_ground_up_software_bridge_CBridgePlugin_SetUnitySendMessageCallback
          (Java_com_ground_up_software_bridge_CBridgePlugin_SetUnitySendMessageCallback
            initialShimState 5).1 0).1 "t" "m" "msg" =
      ((Java_com_ground_up_software_bridge_CBridgePlugin_SetUnitySendMessageCallback
          (Java_com_ground_up_software_bridge_CBridgePlugin_SetUnitySendMessageCallback
            initialShimState 5).1 0).1,
       [Event.log noCallbackLogMessage])) :=
  ⟨by decide,
   register_zero_returns_to_unregistered initialShimState 5 "t" "m" "msg" (by decide)⟩
